import Mathlib

/-!
Shallow embedding of `src/toggle-wacom-touchring-mode.py`.

The script cycles a Wacom tablet touchring through the modes of the
currently active profile: it validates the static `PROFILE` table, locates
the `status_led0_select` sysfs file (path depends on the kernel release
string), reads the persisted mode, discovers devices by parsing
`xsetwacom --list devices` output, queries the active profile over qdbus,
advances the mode by one step and re-applies the mode's settings.

External effects (shell commands run via `executeCommand`) are modelled as
an explicit trace of `Cmd` values; the outside world's responses are an
`Env` record.  Python `int` is `Int`; Python dicts are association lists.
-/

namespace Wacom

/-- Character class of the Python regex `\s` (ASCII whitespace). -/
def isWS (c : Char) : Bool :=
  c = ' ' || c = '\t' || c = '\n' || c = '\x0d' || c = '\x0b' || c = '\x0c'

/-- Character class of the Python regex `\d`. -/
def isDigitCh (c : Char) : Bool :=
  '0' ≤ c && c ≤ '9'

/-- Character class of the Python regex `\w` (Python 2 default: ASCII). -/
def isWordCh (c : Char) : Bool :=
  ('a' ≤ c && c ≤ 'z') || ('A' ≤ c && c ≤ 'Z') || ('0' ≤ c && c ≤ '9') || c = '_'

/-- Python `str.strip()`: drop leading and trailing whitespace. -/
def pyStrip (s : String) : String :=
  String.mk (((s.data.dropWhile isWS).reverse.dropWhile isWS).reverse)

/-- Helper for `pySplitNL`: split at newline characters, accumulating the
current (reversed) segment. -/
def splitNLAux : List Char → List Char → List String
  | [], acc => [String.mk acc.reverse]
  | c :: cs, acc =>
    if c = '\n' then String.mk acc.reverse :: splitNLAux cs []
    else splitNLAux cs (c :: acc)

/-- Python `str.split('\n')`, as `executeCommand.getStdout` does (line 266). -/
def pySplitNL (s : String) : List String :=
  splitNLAux s.data []

/-- One entry of a profile in the `PROFILE` dict (lines 73-125 of the source). -/
structure Mode where
  mode_description : String
  apply_to_dev_type : String
  cmdlist : List (String × String)
deriving DecidableEq, Repr

/-- The modes of one profile: dict from mode key (a decimal string) to `Mode`. -/
abbrev ProfileModes := List (String × Mode)

/-- The `PROFILE` dict: profile name to its modes. -/
abbrev ProfileTable := List (String × ProfileModes)

/-- Python dict lookup `d[k]` on an association list (first binding wins). -/
def assocFind? {α : Type} (l : List (String × α)) (k : String) : Option α :=
  match l with
  | [] => none
  | (k₁, v) :: rest => if k₁ = k then some v else assocFind? rest k

/-- Python dict assignment `d[k] = v`: overwrite in place, or append a new key. -/
def assocSet {α : Type} (l : List (String × α)) (k : String) (v : α) : List (String × α) :=
  match l with
  | [] => [(k, v)]
  | (k₁, v₁) :: rest => if k₁ = k then (k, v) :: rest else (k₁, v₁) :: assocSet rest k v

/-- `MAX_MODES_PER_PROFILE` (line 38 of the source). -/
def MAX_MODES_PER_PROFILE : Nat := 4

/-- The `'Default'` profile of the `PROFILE` dict (lines 77-84). -/
def defaultModes : ProfileModes :=
  [("0", { mode_description := "Default Mode 0 - Scroll Up/Down",
           apply_to_dev_type := "PAD",
           cmdlist := [("AbsWheelUp", "4"), ("AbsWheelDown", "5")] })]

/-- The `'Krita'` profile of the `PROFILE` dict (lines 88-101). -/
def kritaModes : ProfileModes :=
  [("0", { mode_description := "Krita Mode 0 - Zoom In/Out",
           apply_to_dev_type := "PAD",
           cmdlist := [("AbsWheelUp", "4"), ("AbsWheelDown", "5")] }),
   ("1", { mode_description := "Krita Mode 1 - Rotate Right/Left",
           apply_to_dev_type := "PAD",
           cmdlist := [("AbsWheelUp", "key 4"), ("AbsWheelDown", "key 6")] })]

/-- The `'Gimp'` profile of the `PROFILE` dict (lines 105-124). -/
def gimpModes : ProfileModes :=
  [("0", { mode_description := "Gimp Mode 0 - Zoom in/out",
           apply_to_dev_type := "PAD",
           cmdlist := [("AbsWheelUp", "key +shift ="), ("AbsWheelDown", "key -")] }),
   ("1", { mode_description := "Gimp Mode 1 - Scroll up/down",
           apply_to_dev_type := "PAD",
           cmdlist := [("AbsWheelUp", "4"), ("AbsWheelDown", "5")] }),
   ("2", { mode_description := "Gimp Mode 2 - Next/Prev Layer",
           apply_to_dev_type := "PAD",
           cmdlist := [("AbsWheelUp", "key PgUp"), ("AbsWheelDown", "key PgDn")] })]

/-- The static `PROFILE` table of the source (lines 73-125). -/
def PROFILE : ProfileTable :=
  [("Default", defaultModes), ("Krita", kritaModes), ("Gimp", gimpModes)]

/-- `validate_profile_modes` (lines 392-408): every profile must have at most
`MAX_MODES_PER_PROFILE` modes and must contain the keys `str(0) .. str(k-1)`.
`true` means validation passes; `false` means the source calls `exit(1)`. -/
def validate_profile_modes (table : ProfileTable) : Bool :=
  table.all fun p =>
    decide (p.2.length ≤ MAX_MODES_PER_PROFILE) &&
    (List.range p.2.length).all fun i => decide (toString i ∈ p.2.map Prod.fst)

/-- Match a literal character sequence at the head of the input. -/
def dropLit : List Char → List Char → Option (List Char)
  | [], cs => some cs
  | _, [] => none
  | l :: ls, c :: cs => if c = l then dropLit ls cs else none

/-- Match the tail `\s+id:\s+(\d+)\s+type:\s+(\w+)` of the device-listing
regex (line 458) at the head of `cs`; return the two captured groups.
Each `+` is maximal-munch, which agrees with the backtracking engine here
because every run is followed by a character outside its own class. -/
def matchTail (cs : List Char) : Option (String × String) :=
  let ws1 := cs.takeWhile isWS
  if ws1.isEmpty then none else
  match dropLit ['i', 'd', ':'] (cs.dropWhile isWS) with
  | none => none
  | some cs₂ =>
    let ws2 := cs₂.takeWhile isWS
    if ws2.isEmpty then none else
    let cs₃ := cs₂.dropWhile isWS
    let digits := cs₃.takeWhile isDigitCh
    if digits.isEmpty then none else
    let cs₄ := cs₃.dropWhile isDigitCh
    let ws3 := cs₄.takeWhile isWS
    if ws3.isEmpty then none else
    match dropLit ['t', 'y', 'p', 'e', ':'] (cs₄.dropWhile isWS) with
    | none => none
    | some cs₅ =>
      let ws4 := cs₅.takeWhile isWS
      if ws4.isEmpty then none else
      let word := (cs₅.dropWhile isWS).takeWhile isWordCh
      if word.isEmpty then none else
      some (String.mk digits, String.mk word)

/-- `re.search("(.*)\s+id:\s+(\d+)\s+type:\s+(\w+)", line)`: because the
pattern starts with `(.*)`, a match exists iff one exists at position 0, and
the greedy `(.*)` captures the longest prefix whose remainder matches the
tail.  Returns the three groups (name prefix, id digits, type word). -/
def greedySearch (cs : List Char) : Option (List Char × String × String) :=
  (List.range (cs.length + 1)).reverse.findSome? fun i =>
    (matchTail (cs.drop i)).map fun g => (cs.take i, g.1, g.2)

/-- One line of `xsetwacom --list devices` output: regex search followed by
`strip_string_list` on the captured groups (lines 458-459). -/
def searchLine (line : String) : Option (String × String × String) :=
  match greedySearch line.data with
  | none => none
  | some (g1, g2, g3) => some (pyStrip (String.mk g1), pyStrip g2, pyStrip g3)

/-- `WACOM_DEVICES`: device type to (device id to device name). -/
abbrev DevMap := List (String × List (String × String))

/-- Processing of one output line in the discovery loop (lines 457-467):
a non-matching line leaves the map unchanged; a matching line stores
`name` under `[type][id]`. -/
def devStep (m : DevMap) (line : String) : DevMap :=
  match searchLine line with
  | none => m
  | some (name, devId, devType) =>
    let inner := match assocFind? m devType with
      | none => []
      | some l => l
    assocSet m devType (assocSet inner devId name)

/-- The whole discovery loop over the lines of `xsetwacom --list devices`. -/
def parseDevices (lines : List String) : DevMap :=
  lines.foldl devStep []

/-- `int(f.read(1)) % 4` (line 436): parse the first character of the status
file as an integer and reduce it modulo 4; `none` when `int()` would raise
(empty file or a non-digit first character). -/
def parseMode (content : String) : Option Int :=
  match content.data with
  | [] => none
  | c :: _ => if isDigitCh c then some (((c.toNat : Int) - 48) % 4) else none

/-- The mode advance of `toggle_mode` (lines 485-488): step to the next mode,
wrapping to 0 after the last one.  `k` is the mode count of the profile. -/
def nextMode (current : Int) (k : Nat) : Int :=
  if current ≤ (k : Int) - 2 then current + 1 else 0

/-- Python 2 `str < str`: byte-wise (here character-wise) lexicographic
comparison. -/
def pyStrLt : List Char → List Char → Bool
  | [], [] => false
  | [], _ :: _ => true
  | _ :: _, [] => false
  | a :: as, b :: bs => if a < b then true else if b < a then false else pyStrLt as bs

/-- Path-pattern selection (lines 418-423): Python 2 compares the uname
release string with `"3.17"` as strings (lexicographically). -/
def statusLedPath (kernelVersion : String) : String :=
  if pyStrLt kernelVersion.data "3.17".data then
    "/sys/bus/usb/devices/*/wacom_led/status_led0_select"
  else
    "/sys/class/hidraw/hidraw*/device/wacom_led/status_led0_select"

/-- Profile selection (lines 445-449): strip the qdbus output and fall back
to `"Default"` when it is not a key of the table. -/
def selectProfile (table : ProfileTable) (raw : String) : String :=
  let name := pyStrip raw
  if name ∈ table.map Prod.fst then name else "Default"

/-- A shell command run through `executeCommand`, as an explicit event. -/
inductive Cmd where
  | ls (path : String)
  | qdbusGetProfile
  | xsetwacomListDevices
  | echoLed (payload : String) (path : String)
  | xsetwacomSet (devName : String) (key : String) (val : String)
deriving DecidableEq, Repr

/-- The exact command string the source formats for each event. -/
def renderCmd : Cmd → String
  | .ls path => "ls " ++ path
  | .qdbusGetProfile => "qdbus org.kde.Wacom /Tablet org.kde.Wacom.getProfile"
  | .xsetwacomListDevices => "xsetwacom --list devices"
  | .echoLed payload path => "echo " ++ payload ++ " > " ++ path
  | .xsetwacomSet devName key val =>
      "xsetwacom --set \"" ++ devName ++ "\" " ++ key ++ " " ++ val

/-- A device-configuration command (`xsetwacom --set ...`). -/
def isConfigCmd : Cmd → Bool
  | .xsetwacomSet _ _ _ => true
  | _ => false

/-- A write to the LED status file (`echo n > file`). -/
def isLedWrite : Cmd → Bool
  | .echoLed _ _ => true
  | _ => false

/-- The instance state built by `toggle_touchring.__init__`. -/
structure ToggleState where
  SYS_LED_FILE : String
  CURRENT_MODE : Int
  CURRENT_WACOM_PROFILE : String
  WACOM_DEVICES : DevMap
deriving DecidableEq, Repr

/-- The outside world's responses to the commands the script runs. -/
structure Env where
  kernelVersion : String
  lsReturnCode : Int
  lsStdout : String
  ledFileContent : Option String
  qdbusStdout : String
  xsetwacomListStdout : String
deriving DecidableEq, Repr

/-- `toggle_touchring.__init__` (lines 416-473): locate the LED file, read
and parse the current mode, select the profile, discover devices.  Returns
the commands run and either the built state or the exit code (`exit(1)` on
read/parse failure, `exit(ls return code)` when `ls` fails). -/
def toggle_touchring_init (table : ProfileTable) (e : Env) :
    List Cmd × Except Int ToggleState :=
  let path := statusLedPath e.kernelVersion
  if e.lsReturnCode = 0 then
    let sysLedFile := pyStrip e.lsStdout
    match e.ledFileContent.bind parseMode with
    | none => ([Cmd.ls path], Except.error 1)
    | some mode =>
      ([Cmd.ls path, Cmd.qdbusGetProfile, Cmd.xsetwacomListDevices],
       Except.ok
         { SYS_LED_FILE := sysLedFile,
           CURRENT_MODE := mode,
           CURRENT_WACOM_PROFILE := selectProfile table e.qdbusStdout,
           WACOM_DEVICES := parseDevices (pySplitNL e.xsetwacomListStdout) })
  else ([Cmd.ls path], Except.error e.lsReturnCode)

/-- `toggle_touchring.toggle_mode` (lines 477-501): advance the mode, write
the LED file, apply the new mode's `cmdlist` to every device of the mode's
device type.  A `none` from any dict lookup is an uncaught Python
`KeyError`; the commands already issued at that point are kept in the
trace. -/
def toggle_mode (table : ProfileTable) (s : ToggleState) :
    List Cmd × Except String ToggleState :=
  match assocFind? table s.CURRENT_WACOM_PROFILE with
  | none => ([], Except.error "KeyError: profile")
  | some prof =>
    let newMode := nextMode s.CURRENT_MODE prof.length
    let ledCmd : Cmd := Cmd.echoLed (toString newMode) s.SYS_LED_FILE
    match assocFind? prof (toString newMode) with
    | none => ([ledCmd], Except.error "KeyError: mode")
    | some m =>
      match assocFind? s.WACOM_DEVICES m.apply_to_dev_type with
      | none => ([ledCmd], Except.error "KeyError: device type")
      | some devs =>
        (ledCmd ::
           devs.flatMap (fun d => m.cmdlist.map fun p => Cmd.xsetwacomSet d.2 p.1 p.2),
         Except.ok { s with CURRENT_MODE := newMode })

/-- The `__main__` block (lines 505-519): validate the profiles, build the
state, toggle.  Returns the full command trace and the process exit code
(an uncaught `KeyError` makes Python exit with status 1). -/
def mainRun (table : ProfileTable) (e : Env) : List Cmd × Int :=
  if validate_profile_modes table then
    match toggle_touchring_init table e with
    | (tr, Except.error code) => (tr, code)
    | (tr, Except.ok s) =>
      match toggle_mode table s with
      | (cmds, Except.ok _) => (tr ++ cmds, 0)
      | (cmds, Except.error _) => (tr ++ cmds, 1)
  else ([], 1)

/-- Numeric (major, minor) version-order, what a version comparison would
mean numerically — contrast with the string comparison the source uses. -/
def numericallyOlder (maj₁ mnr₁ maj₂ mnr₂ : Nat) : Prop :=
  maj₁ < maj₂ ∨ (maj₁ = maj₂ ∧ mnr₁ < mnr₂)

/-- Environment: LED file readable with content `"0"`, profile `Default`,
device listing with no line matching the pattern. -/
def envC1 : Env :=
  ⟨"6.1", 0, "/dev/led\n", some "0", "Default\n", "no matching line here"⟩

/-- The state `__init__` builds from `envC1`. -/
def stC1 : ToggleState := ⟨"/dev/led", 0, "Default", []⟩

/-- Environment: LED file content `"3"` while the active profile is
`Default`, which has a single mode. -/
def envC2 : Env := ⟨"6.1", 0, "/dev/led\n", some "3", "Default\n", ""⟩

/-- The state `__init__` builds from `envC2`. -/
def stC2 : ToggleState := ⟨"/dev/led", 3, "Default", []⟩

/-- The command trace of a successful `__init__` under kernel `"6.1"`. -/
def trInitOk : List Cmd :=
  [Cmd.ls (statusLedPath "6.1"), Cmd.qdbusGetProfile, Cmd.xsetwacomListDevices]

/-- A state with one discovered PAD device and the `Krita` profile active. -/
def stPad : ToggleState :=
  ⟨"/dev/led", 0, "Krita", [("PAD", [("12", "Wacom Pad pad")])]⟩

/-- A mode used by the deliberately invalid profile table below. -/
def brokenMode : Mode := ⟨"broken", "PAD", []⟩

/-- A profile table violating contiguity: modes `0` and `2` but no `1`. -/
def brokenTable : ProfileTable :=
  [("Broken", [("0", brokenMode), ("2", brokenMode)])]

/-- An arbitrary benign environment. -/
def envC6 : Env := ⟨"6.1", 0, "/dev/led\n", some "0", "Default\n", ""⟩

/-- Environment in which the `ls` lookup of the LED file fails with
status 2. -/
def envC7 : Env := ⟨"6.1", 2, "", none, "", ""⟩

/-- Environment in which qdbus reports a profile name (with surrounding
whitespace) that is not a key of the profile table. -/
def envC8 : Env := ⟨"6.1", 0, "/dev/led\n", some "0", " NotAProfile \n", ""⟩

/-! ## Helper lemmas -/

theorem nextMode_nonneg (c : Int) (k : Nat) (hc : 0 ≤ c) : 0 ≤ nextMode c k := by
  unfold nextMode
  split <;> omega

theorem nextMode_lt (c : Int) (k : Nat) (hk : 1 ≤ k) :
    nextMode c k < (k : Int) := by
  unfold nextMode
  split <;> omega

theorem nextMode_lt_four (c : Int) (k : Nat) (hk : k ≤ 4) :
    nextMode c k < 4 := by
  unfold nextMode
  split <;> omega

theorem parseMode_bounds (content : String) (m : Int)
    (h : parseMode content = some m) : 0 ≤ m ∧ m < 4 := by
  unfold parseMode at h
  split at h
  · exact absurd h (by simp)
  · split at h
    · obtain rfl : _ % 4 = m := Option.some.inj h
      exact ⟨Int.emod_nonneg _ (by norm_num), Int.emod_lt_of_pos _ (by norm_num)⟩
    · exact absurd h (by simp)

theorem parseMode_cons (content : String) (c : Char) (rest : List Char)
    (hdata : content.data = c :: rest) :
    parseMode content =
      if isDigitCh c then some (((c.toNat : Int) - 48) % 4) else none := by
  unfold parseMode
  rw [hdata]

theorem toString_int_digit (m : Int) (h0 : 0 ≤ m) (h4 : m < 4) :
    (toString m).data.length = 1 ∧
    (toString m).data.all (fun c => decide ('0' ≤ c) && decide (c ≤ '3')) = true := by
  interval_cases m <;> exact ⟨by decide, by decide⟩

theorem pyStrLt_iff_lex (a b : List Char) :
    pyStrLt a b = true ↔ List.Lex (· < ·) a b := by
  induction a generalizing b with
  | nil =>
    cases b with
    | nil =>
      simp only [pyStrLt, Bool.false_eq_true, false_iff]
      intro h
      cases h
    | cons y ys =>
      simp only [pyStrLt, true_iff]
      exact List.Lex.nil
  | cons x xs ih =>
    cases b with
    | nil =>
      simp only [pyStrLt, Bool.false_eq_true, false_iff]
      intro h
      cases h
    | cons y ys =>
      by_cases hxy : x < y
      · simp only [pyStrLt, hxy, if_true, ite_true, true_iff]
        exact List.Lex.rel hxy
      · by_cases hyx : y < x
        · simp only [pyStrLt, hxy, hyx, ite_false, ite_true, Bool.false_eq_true,
            false_iff]
          intro h
          cases h with
          | cons _ => exact lt_irrefl x hyx
          | rel h => exact hxy h
        · have hxyeq : x = y := le_antisymm (le_of_not_lt hyx) (le_of_not_lt hxy)
          subst hxyeq
          simp only [pyStrLt, hxy, ite_false]
          rw [ih ys]
          constructor
          · intro h
            exact List.Lex.cons h
          · intro h
            cases h with
            | cons h => exact h
            | rel h => exact absurd h hxy

theorem toggle_ok_mode (table : ProfileTable) (s sNew : ToggleState) (tr : List Cmd)
    (prof : ProfileModes)
    (hp : assocFind? table s.CURRENT_WACOM_PROFILE = some prof)
    (htog : toggle_mode table s = (tr, Except.ok sNew)) :
    sNew.CURRENT_MODE = nextMode s.CURRENT_MODE prof.length := by
  simp only [toggle_mode, hp] at htog
  split at htog
  · simp at htog
  · split at htog
    · simp at htog
    · simp only [Prod.mk.injEq, Except.ok.injEq] at htog
      rw [← htog.2]

theorem init_ok_elim (table : ProfileTable) (e : Env) (tr : List Cmd) (s : ToggleState)
    (h : toggle_touchring_init table e = (tr, Except.ok s)) :
    e.lsReturnCode = 0 ∧
    e.ledFileContent.bind parseMode = some s.CURRENT_MODE ∧
    tr = [Cmd.ls (statusLedPath e.kernelVersion), Cmd.qdbusGetProfile,
          Cmd.xsetwacomListDevices] ∧
    s.SYS_LED_FILE = pyStrip e.lsStdout ∧
    s.CURRENT_WACOM_PROFILE = selectProfile table e.qdbusStdout ∧
    s.WACOM_DEVICES = parseDevices (pySplitNL e.xsetwacomListStdout) := by
  unfold toggle_touchring_init at h
  split at h
  · rename_i hrc
    split at h
    · simp at h
    · rename_i mode hm
      simp only [Prod.mk.injEq, Except.ok.injEq] at h
      obtain ⟨htr, hs⟩ := h
      subst hs
      exact ⟨hrc, hm, htr.symm, rfl, rfl, rfl⟩
  · simp at h

/-! ## Claim theorems -/

/-- C4: for every profile mode count `k ≥ 1` and every current mode `c` in
`[0,k)`, the toggle computes `next = (c+1) mod k`, which lies in `[0,k)`;
`c = k-1` wraps to `0`; and one invocation of `toggle_mode` advances the
stored mode by exactly one such step. -/
theorem c4_toggle_transition (k : Nat) (c : Int) (table : ProfileTable)
    (s sNew : ToggleState) (prof : ProfileModes) (tr : List Cmd)
    (hk : 1 ≤ k) (hc0 : 0 ≤ c) (hck : c < (k : Int))
    (hp : assocFind? table s.CURRENT_WACOM_PROFILE = some prof)
    (htog : toggle_mode table s = (tr, Except.ok sNew)) :
    nextMode c k = (c + 1) % (k : Int) ∧
    0 ≤ nextMode c k ∧ nextMode c k < (k : Int) ∧
    (c = (k : Int) - 1 → nextMode c k = 0) ∧
    sNew.CURRENT_MODE = nextMode s.CURRENT_MODE prof.length := by
  refine ⟨?_, nextMode_nonneg c k hc0, nextMode_lt c k hk, ?_,
    toggle_ok_mode table s sNew tr prof hp htog⟩
  · unfold nextMode
    split
    · exact (Int.emod_eq_of_lt (by omega) (by omega)).symm
    · have hnk : c + 1 = (k : Int) := by omega
      rw [hnk, Int.emod_self]
  · intro hlast
    unfold nextMode
    rw [if_neg (by omega)]

/-- Witness for C4 at `k = 2`, `c = 0`, profile `Krita`, one PAD device. -/
theorem c4_toggle_transition_witness :
    nextMode 0 2 = (0 + 1) % (2 : Int) ∧
    0 ≤ nextMode 0 2 ∧ nextMode 0 2 < (2 : Int) ∧
    ((0 : Int) = (2 : Int) - 1 → nextMode 0 2 = 0) ∧
    (⟨"/dev/led", 1, "Krita", [("PAD", [("12", "Wacom Pad pad")])]⟩ :
        ToggleState).CURRENT_MODE = nextMode stPad.CURRENT_MODE kritaModes.length :=
  c4_toggle_transition 2 0 PROFILE stPad
    ⟨"/dev/led", 1, "Krita", [("PAD", [("12", "Wacom Pad pad")])]⟩ kritaModes
    [Cmd.echoLed "1" "/dev/led",
     Cmd.xsetwacomSet "Wacom Pad pad" "AbsWheelUp" "key 4",
     Cmd.xsetwacomSet "Wacom Pad pad" "AbsWheelDown" "key 6"]
    (by decide) (by decide) (by decide) rfl rfl

/-- C5: for every nonnegative current mode value (every value the mod-4
read can produce, including stray values in `[k, 4)`), one toggle step
lands in `[0, k)`; and every successfully parsed status value is indeed
nonnegative (and below 4). -/
theorem c5_toggle_in_range (k : Nat) (c : Int) (hk : 1 ≤ k) (hc : 0 ≤ c) :
    (0 ≤ nextMode c k ∧ nextMode c k < (k : Int)) ∧
    ∀ content m, parseMode content = some m → 0 ≤ m ∧ m < 4 :=
  ⟨⟨nextMode_nonneg c k hc, nextMode_lt c k hk⟩,
   fun content m h => parseMode_bounds content m h⟩

/-- Witness for C5 at the stray value `c = 3` with mode count `k = 2`. -/
theorem c5_toggle_in_range_witness :
    (0 ≤ nextMode 3 2 ∧ nextMode 3 2 < (2 : Int)) ∧
    (0 ≤ (3 : Int) ∧ (3 : Int) < 4) :=
  ⟨(c5_toggle_in_range 2 3 (by decide) (by decide)).1,
   (c5_toggle_in_range 2 3 (by decide) (by decide)).2 "7" 3 (by decide)⟩

/-- C10: the choice between the two status-file path patterns compares the
kernel release string with `"3.17"` lexicographically (character-wise,
`List.Lex` on the characters), not numerically: the older-layout (usb)
path is chosen exactly when the release string is lexicographically below
`"3.17"`, so release `"3.9"` — numerically older than 3.17 — still
selects the newer-layout hidraw path. -/
theorem c10_lexicographic_kernel_compare :
    (∀ s : String,
       statusLedPath s = "/sys/bus/usb/devices/*/wacom_led/status_led0_select" ↔
         List.Lex (· < ·) s.data "3.17".data) ∧
    statusLedPath "3.9" =
      "/sys/class/hidraw/hidraw*/device/wacom_led/status_led0_select" ∧
    numericallyOlder 3 9 3 17 ∧
    ¬ List.Lex (· < ·) "3.9".data "3.17".data := by
  refine ⟨?_, by decide, Or.inr ⟨rfl, by norm_num⟩, ?_⟩
  · intro s
    rw [← pyStrLt_iff_lex s.data "3.17".data]
    unfold statusLedPath
    by_cases h : pyStrLt s.data "3.17".data = true
    · rw [if_pos h]
      simp [h]
    · rw [if_neg h]
      simp only [h, iff_false]
      decide
  · intro hlt
    exact absurd ((pyStrLt_iff_lex "3.9".data "3.17".data).mpr hlt) (by decide)

/-- C3: the first command `toggle_mode` issues is the LED status-file
write, and its payload — the formatted new mode index — is exactly one
ASCII digit between `'0'` and `'3'`, with no other characters. -/
theorem c3_led_write_single_digit (table : ProfileTable) (s : ToggleState)
    (prof : ProfileModes)
    (hp : assocFind? table s.CURRENT_WACOM_PROFILE = some prof)
    (hk : prof.length ≤ MAX_MODES_PER_PROFILE)
    (hc : 0 ≤ s.CURRENT_MODE) :
    (toggle_mode table s).1.head? =
      some (Cmd.echoLed (toString (nextMode s.CURRENT_MODE prof.length))
        s.SYS_LED_FILE) ∧
    (toString (nextMode s.CURRENT_MODE prof.length)).data.length = 1 ∧
    (toString (nextMode s.CURRENT_MODE prof.length)).data.all
      (fun c => decide ('0' ≤ c) && decide (c ≤ '3')) = true := by
  have hbounds := toString_int_digit (nextMode s.CURRENT_MODE prof.length)
    (nextMode_nonneg _ _ hc) (nextMode_lt_four _ _ hk)
  refine ⟨?_, hbounds.1, hbounds.2⟩
  simp only [toggle_mode, hp]
  cases hfind : assocFind? prof (toString (nextMode s.CURRENT_MODE prof.length)) with
  | none => simp
  | some m =>
    cases hdev : assocFind? s.WACOM_DEVICES m.apply_to_dev_type with
    | none => simp [hdev]
    | some devs => simp [hdev]

/-- Witness for C3 with the `Krita` profile and one PAD device. -/
theorem c3_led_write_single_digit_witness :
    (toggle_mode PROFILE stPad).1.head? =
      some (Cmd.echoLed (toString (nextMode stPad.CURRENT_MODE kritaModes.length))
        stPad.SYS_LED_FILE) ∧
    (toString (nextMode stPad.CURRENT_MODE kritaModes.length)).data.length = 1 ∧
    (toString (nextMode stPad.CURRENT_MODE kritaModes.length)).data.all
      (fun c => decide ('0' ≤ c) && decide (c ≤ '3')) = true :=
  c3_led_write_single_digit PROFILE stPad kritaModes rfl (by decide) (by decide)

/-- C8: the profile name from the desktop-session query is
whitespace-trimmed and looked up in the table; an unknown name falls back
to `"Default"` and `__init__` still succeeds (no error). -/
theorem c8_profile_fallback (table : ProfileTable) (e : Env)
    (hrc : e.lsReturnCode = 0)
    (hparse : (e.ledFileContent.bind parseMode).isSome = true)
    (hnk : pyStrip e.qdbusStdout ∉ table.map Prod.fst) :
    selectProfile table e.qdbusStdout = "Default" ∧
    (toggle_touchring_init table e).2.map ToggleState.CURRENT_WACOM_PROFILE =
      Except.ok "Default" := by
  have hsel : selectProfile table e.qdbusStdout = "Default" := by
    unfold selectProfile
    rw [if_neg hnk]
  refine ⟨hsel, ?_⟩
  obtain ⟨m, hm⟩ := Option.isSome_iff_exists.mp hparse
  simp [toggle_touchring_init, hrc, hm, hsel, Except.map]

/-- Witness for C8 with the unknown profile name `" NotAProfile "`. -/
theorem c8_profile_fallback_witness :
    selectProfile PROFILE envC8.qdbusStdout = "Default" ∧
    (toggle_touchring_init PROFILE envC8).2.map ToggleState.CURRENT_WACOM_PROFILE =
      Except.ok "Default" :=
  c8_profile_fallback PROFILE envC8 rfl (by decide) (by decide)

/-- C9: device-listing parsing is a pure function of the listing text
(repeated parses agree definitionally), and a line on which the regex
search fails contributes nothing to the device map. -/
theorem c9_parse_deterministic_skips (text pre post : List String) (line : String)
    (h : searchLine line = none) :
    parseDevices text = parseDevices text ∧
    parseDevices (pre ++ line :: post) = parseDevices (pre ++ post) := by
  refine ⟨rfl, ?_⟩
  unfold parseDevices
  rw [List.foldl_append, List.foldl_append, List.foldl_cons]
  have hstep : devStep (List.foldl devStep [] pre) line = List.foldl devStep [] pre := by
    unfold devStep
    rw [h]
  rw [hstep]

/-- Witness for C9: a non-matching line inserted after a matching one. -/
theorem c9_parse_deterministic_skips_witness :
    parseDevices ["Pad pad \tid: 12\ttype: PAD"] =
      parseDevices ["Pad pad \tid: 12\ttype: PAD"] ∧
    parseDevices (["Pad pad \tid: 12\ttype: PAD"] ++ "garbage" :: []) =
      parseDevices (["Pad pad \tid: 12\ttype: PAD"] ++ []) :=
  c9_parse_deterministic_skips ["Pad pad \tid: 12\ttype: PAD"]
    ["Pad pad \tid: 12\ttype: PAD"] [] "garbage" (by decide)

theorem range_map_toString_nodup (k : Nat) (hk : k ≤ 4) :
    ((List.range k).map toString).Nodup := by
  interval_cases k <;> decide

/-- C6: a profile table in which some profile has more than
`MAX_MODES_PER_PROFILE` (4) modes, or whose mode keys are not exactly
`str 0, ..., str (k-1)` for its mode count `k`, fails
`validate_profile_modes`; `__main__` then exits with status 1 before any
command is run (no device interaction, no state mutation). -/
theorem c6_validation_rejects (table : ProfileTable) (name : String)
    (prof : ProfileModes) (e : Env)
    (hmem : (name, prof) ∈ table)
    (hbad : MAX_MODES_PER_PROFILE < prof.length ∨
      ¬ (prof.map Prod.fst).Perm ((List.range prof.length).map toString)) :
    validate_profile_modes table = false ∧ mainRun table e = ([], 1) := by
  have hfalse : validate_profile_modes table = false := by
    rw [← Bool.not_eq_true]
    intro hall
    rw [validate_profile_modes, List.all_eq_true] at hall
    have hp := hall (name, prof) hmem
    rw [Bool.and_eq_true, decide_eq_true_iff, List.all_eq_true] at hp
    obtain ⟨hlen, hkeys⟩ := hp
    have hlen2 : prof.length ≤ MAX_MODES_PER_PROFILE := hlen
    have hkeys2 : ∀ i ∈ List.range prof.length,
        decide (toString i ∈ prof.map Prod.fst) = true := hkeys
    rcases hbad with hbig | hperm
    · omega
    · apply hperm
      have hsub : ((List.range prof.length).map toString) ⊆ prof.map Prod.fst := by
        intro x hx
        obtain ⟨i, hi, rfl⟩ := List.mem_map.mp hx
        exact of_decide_eq_true (hkeys2 i hi)
      have hndL : ((List.range prof.length).map toString).Nodup :=
        range_map_toString_nodup prof.length hlen2
      have hlenL : (prof.map Prod.fst).length ≤
          ((List.range prof.length).map toString).length := by
        simp
      exact ((List.Nodup.subperm hndL hsub).perm_of_length_le hlenL).symm
  refine ⟨hfalse, ?_⟩
  simp [mainRun, hfalse]

/-- Witness for C6: a table whose only profile defines modes 0 and 2. -/
theorem c6_validation_rejects_witness :
    validate_profile_modes brokenTable = false ∧
    mainRun brokenTable envC6 = ([], 1) :=
  c6_validation_rejects brokenTable "Broken" [("0", brokenMode), ("2", brokenMode)]
    envC6 (by decide) (Or.inr (by decide))

/-- C7: when the `ls` lookup of the status file fails, the process exits
with the lookup's return status; when the file is unreadable or its first
character does not parse as an integer, it exits with status 1; in both
cases the only command ever run is the `ls` itself — no device
configuration and no status-file write. -/
theorem c7_fatal_state_file (table : ProfileTable) (e : Env)
    (hv : validate_profile_modes table = true)
    (hbad : e.lsReturnCode ≠ 0 ∨ e.ledFileContent.bind parseMode = none) :
    (mainRun table e).1 = [Cmd.ls (statusLedPath e.kernelVersion)] ∧
    (mainRun table e).2 = (if e.lsReturnCode = 0 then 1 else e.lsReturnCode) ∧
    (mainRun table e).2 ≠ 0 ∧
    (mainRun table e).1.filter isConfigCmd = [] ∧
    (mainRun table e).1.filter isLedWrite = [] := by
  have hmain : mainRun table e =
      ([Cmd.ls (statusLedPath e.kernelVersion)],
       if e.lsReturnCode = 0 then 1 else e.lsReturnCode) := by
    by_cases hrc : e.lsReturnCode = 0
    · have hparse : e.ledFileContent.bind parseMode = none := by
        rcases hbad with h | h
        · exact absurd hrc h
        · exact h
      simp [mainRun, hv, toggle_touchring_init, hrc, hparse]
    · simp [mainRun, hv, toggle_touchring_init, hrc]
  constructor
  · rw [hmain]
  constructor
  · rw [hmain]
  constructor
  · rw [hmain]
    show (if e.lsReturnCode = 0 then (1 : Int) else e.lsReturnCode) ≠ 0
    split
    · decide
    · rename_i hrc
      exact hrc
  constructor
  · rw [hmain]
    rfl
  · rw [hmain]
    rfl

/-- Witness for C7: the `ls` lookup fails with status 2. -/
theorem c7_fatal_state_file_witness :
    (mainRun PROFILE envC7).1 = [Cmd.ls (statusLedPath envC7.kernelVersion)] ∧
    (mainRun PROFILE envC7).2 =
      (if envC7.lsReturnCode = 0 then 1 else envC7.lsReturnCode) ∧
    (mainRun PROFILE envC7).2 ≠ 0 ∧
    (mainRun PROFILE envC7).1.filter isConfigCmd = [] ∧
    (mainRun PROFILE envC7).1.filter isLedWrite = [] :=
  c7_fatal_state_file PROFILE envC7 (by decide) (Or.inl (by decide))

/-- C1 counterexample: device discovery finds nothing (`envC1`), so the
`Default` mode's device class `PAD` has zero devices; the run issues zero
device-configuration commands, but the process exits with status 1 — the
uncaught `KeyError` from `WACOM_DEVICES['PAD']` — not 0. -/
theorem c1_empty_class_counterexample :
    (mainRun PROFILE envC1).2 = 1 ∧ (mainRun PROFILE envC1).2 ≠ 0 ∧
    (mainRun PROFILE envC1).1.filter isConfigCmd = [] ∧
    (toggle_touchring_init PROFILE envC1).2.map
      (fun s => assocFind? s.WACOM_DEVICES "PAD") = Except.ok none :=
  ⟨rfl, by decide, rfl, rfl⟩

/-- C1 (amended): when the selected mode's target device class has zero
discovered devices, applying the mode issues zero device-configuration
commands, but the process does not complete normally: the missing-key
lookup `WACOM_DEVICES[...]` is an uncaught `KeyError`, and under
`__main__` the process exits with status 1 after having already written
the LED status file. -/
theorem c1_empty_class_keyerror (table : ProfileTable) (s : ToggleState)
    (prof : ProfileModes) (m : Mode)
    (hp : assocFind? table s.CURRENT_WACOM_PROFILE = some prof)
    (hm : assocFind? prof (toString (nextMode s.CURRENT_MODE prof.length)) = some m)
    (hd : assocFind? s.WACOM_DEVICES m.apply_to_dev_type = none) :
    toggle_mode table s =
      ([Cmd.echoLed (toString (nextMode s.CURRENT_MODE prof.length)) s.SYS_LED_FILE],
       Except.error "KeyError: device type") ∧
    (toggle_mode table s).1.filter isConfigCmd = [] ∧
    ∀ e tr, validate_profile_modes table = true →
      toggle_touchring_init table e = (tr, Except.ok s) →
      (mainRun table e).2 = 1 ∧ (mainRun table e).1.filter isConfigCmd = [] := by
  have h1 : toggle_mode table s =
      ([Cmd.echoLed (toString (nextMode s.CURRENT_MODE prof.length)) s.SYS_LED_FILE],
       Except.error "KeyError: device type") := by
    simp [toggle_mode, hp, hm, hd]
  refine ⟨h1, by rw [h1]; rfl, ?_⟩
  intro e tr hv hinit
  obtain ⟨-, -, htr, -, -, -⟩ := init_ok_elim table e tr s hinit
  constructor
  · simp [mainRun, hv, hinit, h1]
  · simp [mainRun, hv, hinit, h1, htr, isConfigCmd]

/-- Witness for the amended C1 with the `Default` profile and `envC1`. -/
theorem c1_empty_class_keyerror_witness :
    toggle_mode PROFILE stC1 =
      ([Cmd.echoLed (toString (nextMode stC1.CURRENT_MODE defaultModes.length))
          stC1.SYS_LED_FILE],
       Except.error "KeyError: device type") ∧
    (toggle_mode PROFILE stC1).1.filter isConfigCmd = [] ∧
    ((mainRun PROFILE envC1).2 = 1 ∧
     (mainRun PROFILE envC1).1.filter isConfigCmd = []) :=
  let T := c1_empty_class_keyerror PROFILE stC1 defaultModes
    ⟨"Default Mode 0 - Scroll Up/Down", "PAD",
     [("AbsWheelUp", "4"), ("AbsWheelDown", "5")]⟩ rfl rfl rfl
  ⟨T.1, T.2.1, T.2.2 envC1 trInitOk (by decide) rfl⟩

/-- C2 counterexample: the status file holds `"3"` while the active
profile is `Default`, whose mode count is `k = 1`; the stored current
mode after `__init__` is 3, which is not below `k` — the value is not
reduced modulo the active profile's mode count. -/
theorem c2_mod_constant_counterexample :
    (toggle_touchring_init PROFILE envC2).2.map ToggleState.CURRENT_MODE =
      Except.ok 3 ∧
    (toggle_touchring_init PROFILE envC2).2.map ToggleState.CURRENT_WACOM_PROFILE =
      Except.ok "Default" ∧
    (assocFind? PROFILE "Default").map List.length = some 1 ∧
    ¬ ((3 : Int) < 1) :=
  ⟨rfl, rfl, rfl, by decide⟩

/-- C2 (amended): the integer parsed from the status file's first
character is reduced modulo the constant `MAX_MODES_PER_PROFILE` (4) —
not modulo the active profile's mode count — so the initial mode always
lies in `[0,4)` but need not lie in `[0,k)` for the active profile. -/
theorem c2_mod_constant (table : ProfileTable) (e : Env) (tr : List Cmd)
    (s : ToggleState)
    (hinit : toggle_touchring_init table e = (tr, Except.ok s)) :
    e.ledFileContent.bind parseMode = some s.CURRENT_MODE ∧
    0 ≤ s.CURRENT_MODE ∧ s.CURRENT_MODE < 4 ∧
    ∀ content c rest, e.ledFileContent = some content → content.data = c :: rest →
      isDigitCh c = true ∧ s.CURRENT_MODE = ((c.toNat : Int) - 48) % 4 := by
  obtain ⟨-, hparse, -, -, -, -⟩ := init_ok_elim table e tr s hinit
  obtain ⟨content, hcontent, hpm⟩ := Option.bind_eq_some.mp hparse
  obtain ⟨hb0, hb4⟩ := parseMode_bounds content _ hpm
  refine ⟨hparse, hb0, hb4, ?_⟩
  intro content2 c rest hc2 hdata
  rw [hcontent] at hc2
  obtain rfl : content = content2 := Option.some.inj hc2
  rw [parseMode_cons content c rest hdata] at hpm
  split at hpm
  · rename_i hdig
    exact ⟨hdig, (Option.some.inj hpm).symm⟩
  · exact absurd hpm (by simp)

/-- Witness for the amended C2 at `envC2` (status content `"3"`). -/
theorem c2_mod_constant_witness :
    envC2.ledFileContent.bind parseMode = some stC2.CURRENT_MODE ∧
    0 ≤ stC2.CURRENT_MODE ∧ stC2.CURRENT_MODE < 4 ∧
    (isDigitCh '3' = true ∧ stC2.CURRENT_MODE = (('3'.toNat : Int) - 48) % 4) :=
  let T := c2_mod_constant PROFILE envC2 trInitOk stC2 rfl
  ⟨T.1, T.2.1, T.2.2.1, T.2.2.2 "3" '3' [] rfl rfl⟩

end Wacom
